import Mathlib

/-!
Verification development for the tutor-log-api recurring-event engine.

This file shallowly embeds the recurring-event core of the repository:

* `src/models/utils/enums.py` — the `RepeatPatternEnum` class (members
  `WEEKLY`, `MONTHLY`, `CUSTOM_DAYS`; the class defines no `DAILY` and no
  `NONE` member, although `src/routers/utils/helpers.py` line 42 reads
  `RepeatPatternEnum.DAILY` and `src/routers/event.py` line 43 reads
  `RepeatPatternEnum.NONE`; in Python, reading a missing enum member raises
  `AttributeError`).
* `src/models/events.py` — the `Event` and `EventRepeatDay` rows.
* `src/routers/utils/helpers.py` — `generate_repeat_instances`.
* `src/routers/event.py` — `update_event` (lines 147-247) and
  `delete_event` (lines 249-283).

Dates are modelled as proleptic-Gregorian year/month/day triples, exactly
Python's `datetime.date`; `Date.toOrdinal` is Python's `date.toordinal`
(ordinal 1 = 0001-01-01, a Monday).  Python compares dates by ordinal, so
order here is ordinal order.  Times of day are modelled at minute
granularity: a `DateTime` is a date plus minutes after midnight, and
Python's `datetime` order is the lexicographic order `DateTime.toMin`.
`while` loops over dates are embedded as structural recursion on a fuel
argument equal to the exact number of guard-true iterations of the source
loop (one extra guard-false pass returns `[]` exactly as fuel 0 does, so
the value is unchanged).
-/

namespace TutorLog

/-- Gregorian leap-year test, as Python's `calendar.isleap` /
`datetime.date` use it. -/
def isLeapYear (y : Nat) : Bool :=
  decide ((y % 4 = 0 ∧ ¬ y % 100 = 0) ∨ y % 400 = 0)

/-- Number of days of month `m` (1-12) of year `y`; 0 for an out-of-range
month index. -/
def daysInMonth (y m : Nat) : Nat :=
  match m with
  | 1 => 31
  | 2 => if isLeapYear y then 29 else 28
  | 3 => 31
  | 4 => 30
  | 5 => 31
  | 6 => 30
  | 7 => 31
  | 8 => 31
  | 9 => 30
  | 10 => 31
  | 11 => 30
  | 12 => 31
  | _ => 0

/-- One extra day in a leap year. -/
def leapDay (leap : Bool) : Nat :=
  if leap then 1 else 0

/-- Days in the year `y` that precede month `m` (1-12), given the
leap-year flag of `y`. -/
def daysBeforeMonth (leap : Bool) (m : Nat) : Nat :=
  let l : Nat := leapDay leap
  match m with
  | 1 => 0
  | 2 => 31
  | 3 => 59 + l
  | 4 => 90 + l
  | 5 => 120 + l
  | 6 => 151 + l
  | 7 => 181 + l
  | 8 => 212 + l
  | 9 => 243 + l
  | 10 => 273 + l
  | 11 => 304 + l
  | 12 => 334 + l
  | _ => 400

/-- Days before January 1 of year `y` in the proleptic Gregorian
calendar (year 1 has 0 days before it). -/
def daysBeforeYear (y : Nat) : Nat :=
  365 * (y - 1) + (y - 1) / 4 + (y - 1) / 400 - (y - 1) / 100

/-- A calendar date, as Python's `datetime.date`. -/
structure Date where
  year : Nat
  month : Nat
  day : Nat
  deriving DecidableEq

/-- The dates `datetime.date` can actually hold. -/
def Date.Valid (d : Date) : Prop :=
  1 ≤ d.year ∧ 1 ≤ d.month ∧ d.month ≤ 12 ∧ 1 ≤ d.day ∧ d.day ≤ daysInMonth d.year d.month

instance (d : Date) : Decidable d.Valid := by
  unfold Date.Valid; infer_instance

/-- Python's `date.toordinal`: 0001-01-01 has ordinal 1.  Python compares
dates by this ordinal. -/
def Date.toOrdinal (d : Date) : Nat :=
  daysBeforeYear d.year + daysBeforeMonth (isLeapYear d.year) d.month + d.day

/-- Python's `date.weekday()`: Monday = 0 … Sunday = 6.  Ordinal 1
(0001-01-01) is a Monday. -/
def Date.pyWeekday (d : Date) : Nat :=
  (d.toOrdinal + 6) % 7

/-- The repository's normalized weekday, helpers.py line 74:
`(current_date.weekday() + 1) % 7`, i.e. Sunday = 0 … Saturday = 6. -/
def normWeekday (d : Date) : Int :=
  ((d.pyWeekday : Int) + 1) % 7

/-- Python's `current_date + timedelta(days=1)`, written by field rollover. -/
def Date.nextDay (d : Date) : Date :=
  if d.day < daysInMonth d.year d.month then ⟨d.year, d.month, d.day + 1⟩
  else if d.month < 12 then ⟨d.year, d.month + 1, 1⟩
  else ⟨d.year + 1, 1, 1⟩

/-- Python's `today - timedelta(days=1)`, written by field rollover. -/
def Date.prevDay (d : Date) : Date :=
  if 1 < d.day then ⟨d.year, d.month, d.day - 1⟩
  else if 1 < d.month then ⟨d.year, d.month - 1, daysInMonth d.year (d.month - 1)⟩
  else ⟨d.year - 1, 12, 31⟩

/-- Python's binary `max` on dates: the second argument wins only when it
is strictly larger. -/
def pymax (a b : Date) : Date :=
  if a.toOrdinal < b.toOrdinal then b else a

/-- Python's binary `min` on dates: the second argument wins only when it
is strictly smaller. -/
def pymin (a b : Date) : Date :=
  if b.toOrdinal < a.toOrdinal then b else a

/-- Python's `datetime`: a date plus minutes after midnight
(sub-minute precision is irrelevant to this core). -/
structure DateTime where
  date : Date
  time : Nat
  deriving DecidableEq

/-- Total minutes since the proleptic epoch; Python compares and subtracts
datetimes exactly by this quantity. -/
def DateTime.toMin (t : DateTime) : Nat :=
  1440 * t.date.toOrdinal + t.time

/-- Python's `datetime.combine(d, t)`. -/
def pyCombine (d : Date) (t : Nat) : DateTime := ⟨d, t⟩

/-- `EventTypeEnum` of enums.py lines 9-11: `ONCE = "once"`,
`REPEAT = "repeat"`. -/
inductive EventTypeEnum
  | once
  | repeating
  deriving DecidableEq

/-- `RepeatPatternEnum` of enums.py lines 13-16.  The class body defines
exactly these three members; there is no `DAILY` and no `NONE` member. -/
inductive RepeatPatternEnum
  | weekly
  | monthly
  | custom_days
  deriving DecidableEq

/-- The member names actually defined by the `RepeatPatternEnum` class
body (enums.py lines 13-16). -/
def repeatPatternMembers : List String :=
  ["WEEKLY", "MONTHLY", "CUSTOM_DAYS"]

/-- Whether the attribute lookup `RepeatPatternEnum.DAILY` performed at
helpers.py line 42 resolves.  It does not: Python raises
`AttributeError` for a missing enum member. -/
def dailyMemberExists : Bool :=
  repeatPatternMembers.contains ("DAILY")

/-- Whether the attribute lookup `RepeatPatternEnum.NONE` performed at
event.py line 43 resolves.  It does not. -/
def noneMemberExists : Bool :=
  repeatPatternMembers.contains ("NONE")

/-- An `event_repeat_days` row (models/events.py lines 46-56). -/
structure EventRepeatDay where
  id : Nat
  event_id : Nat
  day_of_week : Int
  deriving DecidableEq

/-- An `events` row (models/events.py lines 8-26).  `repeat_days` is the
ORM relationship to the event's `event_repeat_days` rows.  `created_at`
and `updated_at` are opaque timestamps. -/
structure Event where
  id : Nat
  title : String
  description : Option String
  event_type : EventTypeEnum
  start_time : DateTime
  end_time : DateTime
  repeat_pattern : Option RepeatPatternEnum
  repeat_until : Option Date
  owner_id : Nat
  created_at : Nat
  updated_at : Nat
  repeat_days : List EventRepeatDay
  deriving DecidableEq

/-- One dict appended to `instances` by `generate_repeat_instances`
(helpers.py lines 22-35, 47-61, 80-94, 110-124).  The single-event dict
has no `instance_date` key, hence the `Option`. -/
structure EventInstance where
  id : Nat
  title : String
  description : Option String
  event_type : EventTypeEnum
  start_time : DateTime
  end_time : DateTime
  repeat_pattern : Option RepeatPatternEnum
  repeat_until : Option Date
  created_at : Nat
  updated_at : Nat
  is_repeat_instance : Bool
  original_date : Date
  instance_date : Option Date
  deriving DecidableEq

/-- The dict built for a non-repeating event (helpers.py lines 22-35). -/
def mkSingleInstance (ev : Event) : EventInstance :=
  { id := ev.id
    title := ev.title
    description := ev.description
    event_type := ev.event_type
    start_time := ev.start_time
    end_time := ev.end_time
    repeat_pattern := ev.repeat_pattern
    repeat_until := ev.repeat_until
    created_at := ev.created_at
    updated_at := ev.updated_at
    is_repeat_instance := false
    original_date := ev.start_time.date
    instance_date := none }

/-- The dict built for a generated repeat occurrence on date `d`
(helpers.py lines 47-61, 80-94, 110-124): the template's times of day
are combined with `d`. -/
def mkRepeatInstance (ev : Event) (d : Date) : EventInstance :=
  { id := ev.id
    title := ev.title
    description := ev.description
    event_type := ev.event_type
    start_time := pyCombine d ev.start_time.time
    end_time := pyCombine d ev.end_time.time
    repeat_pattern := ev.repeat_pattern
    repeat_until := ev.repeat_until
    created_at := ev.created_at
    updated_at := ev.updated_at
    is_repeat_instance := true
    original_date := ev.start_time.date
    instance_date := some d }

/-- The DAILY `while` loop of helpers.py lines 43-62: one occurrence per
day from `cur` while `cur <= repeatEnd`.  Fuel counts the guard-true
iterations. -/
def dailyLoop (ev : Event) (repeatEnd : Date) : Nat → Date → List EventInstance
  | 0, _ => []
  | fuel + 1, cur =>
    if cur.toOrdinal ≤ repeatEnd.toOrdinal then
      mkRepeatInstance ev cur :: dailyLoop ev repeatEnd fuel cur.nextDay
    else []

/-- The WEEKLY `while` loop of helpers.py lines 72-96: day by day from
`cur` while `cur <= repeatEnd`, emitting when the normalized weekday is
in `days`. -/
def weeklyLoop (ev : Event) (repeatEnd : Date) (days : List Int) :
    Nat → Date → List EventInstance
  | 0, _ => []
  | fuel + 1, cur =>
    if cur.toOrdinal ≤ repeatEnd.toOrdinal then
      (if days.contains (normWeekday cur) then [mkRepeatInstance ev cur] else []) ++
        weeklyLoop ev repeatEnd days fuel cur.nextDay
    else []

/-- The MONTHLY `while` loop of helpers.py lines 102-133: month by month
from `(y, m)` while `date(y, m, 1) <= repeatEnd`.  `date.replace(day =
originalDay)` raises `ValueError` (and the month is skipped) exactly when
`originalDay` is not a day of the month; otherwise the occurrence is
emitted when `windowStart <= date(y, m, originalDay) <= repeatEnd`. -/
def monthlyLoop (ev : Event) (windowStart repeatEnd : Date) (originalDay : Nat) :
    Nat → Nat × Nat → List EventInstance
  | 0, _ => []
  | fuel + 1, (y, m) =>
    if (Date.mk y m 1).toOrdinal ≤ repeatEnd.toOrdinal then
      (if 1 ≤ originalDay ∧ originalDay ≤ daysInMonth y m ∧
          windowStart.toOrdinal ≤ (Date.mk y m originalDay).toOrdinal ∧
          (Date.mk y m originalDay).toOrdinal ≤ repeatEnd.toOrdinal then
        [mkRepeatInstance ev ⟨y, m, originalDay⟩]
      else []) ++
        monthlyLoop ev windowStart repeatEnd originalDay fuel
          (if m = 12 then (y + 1, 1) else (y, m + 1))
    else []

/-- The single-event branch of helpers.py lines 18-36. -/
def singleBranch (ev : Event) (start_date end_date : Date) : List EventInstance :=
  if start_date.toOrdinal ≤ ev.start_time.date.toOrdinal ∧
      ev.start_time.date.toOrdinal ≤ end_date.toOrdinal then
    [mkSingleInstance ev]
  else []

/-- Helpers.py line 39: `current_date = max(start_date, event.start_time.date())`. -/
def firstCandidate (ev : Event) (start_date : Date) : Date :=
  pymax start_date ev.start_time.date

/-- Helpers.py line 40:
`repeat_end_date = min(end_date, event.repeat_until) if event.repeat_until else end_date`. -/
def repeatEndDate (ev : Event) (end_date : Date) : Date :=
  match ev.repeat_until with
  | some ru => pymin end_date ru
  | none => end_date

/-- The body of the DAILY branch, helpers.py lines 39-62 (the bounds of
lines 39-40 followed by the day-by-day loop).  No event row can carry a
DAILY pattern — `RepeatPatternEnum` defines no such member — so this
branch body is kept as a standalone function of the event's other
fields. -/
def dailyBranch (ev : Event) (start_date end_date : Date) : List EventInstance :=
  let cur := firstCandidate ev start_date
  let re := repeatEndDate ev end_date
  dailyLoop ev re (re.toOrdinal + 1 - cur.toOrdinal) cur

/-- The `elif` chain of helpers.py lines 18-135 with each branch body
translated as written, granted that the comparison against
`RepeatPatternEnum.DAILY` at line 42 evaluates (to False for the three
representable members).  `weekly` takes lines 64-96 (including the
empty-set fallback of lines 68-70, which uses the UN-normalized
`event.start_time.weekday()`); `monthly` takes lines 98-133;
`custom_days` matches no branch and falls through to `return instances`
with the list still empty. -/
def generateRepeatInstancesU (ev : Event) (start_date end_date : Date) :
    List EventInstance :=
  match ev.repeat_pattern with
  | none => singleBranch ev start_date end_date
  | some pat =>
    let cur := firstCandidate ev start_date
    let re := repeatEndDate ev end_date
    match pat with
    | .weekly =>
      let ds0 := ev.repeat_days.map (fun rd => rd.day_of_week)
      let ds := if ds0.isEmpty then [(ev.start_time.date.pyWeekday : Int)] else ds0
      weeklyLoop ev re ds (re.toOrdinal + 1 - cur.toOrdinal) cur
    | .monthly =>
      monthlyLoop ev start_date re ev.start_time.date.day
        (re.year * 12 + re.month + 1 - (cur.year * 12 + cur.month))
        (cur.year, cur.month)
    | .custom_days => []

/-- Python exceptions and HTTP errors surfaced by the routers. -/
inductive PyExn
  | attributeError
  | integrityError
  | http400
  | http403
  | http404
  deriving DecidableEq

instance {ε α : Type} [DecidableEq ε] [DecidableEq α] : DecidableEq (Except ε α) :=
  fun a b =>
    match a, b with
    | .error e, .error f =>
      if h : e = f then .isTrue (congrArg Except.error h)
      else .isFalse (fun c => h (Except.error.inj c))
    | .ok x, .ok y =>
      if h : x = y then .isTrue (congrArg Except.ok h)
      else .isFalse (fun c => h (Except.ok.inj c))
    | .error _, .ok _ => .isFalse (fun c => Except.noConfusion c)
    | .ok _, .error _ => .isFalse (fun c => Except.noConfusion c)

/-- `generate_repeat_instances` of helpers.py lines 10-135, faithfully:
a non-repeating event takes the single-event branch; any repeating event
first evaluates `event.repeat_pattern == RepeatPatternEnum.DAILY` (line
42), and the attribute lookup `RepeatPatternEnum.DAILY` raises
`AttributeError` because enums.py lines 13-16 define no `DAILY` member.
Were the member present, the `elif` chain computes
`generateRepeatInstancesU`. -/
def generate_repeat_instances (ev : Event) (start_date end_date : Date) :
    Except PyExn (List EventInstance) :=
  match ev.repeat_pattern with
  | none => .ok (generateRepeatInstancesU ev start_date end_date)
  | some _ =>
    if dailyMemberExists then .ok (generateRepeatInstancesU ev start_date end_date)
    else .error .attributeError

/-- One day's worth of minutes. -/
def minutesPerDay : Nat := 1440

/-- Add `k` days to a date (repeated `timedelta(days=1)`). -/
def Date.addDays : Date → Nat → Date
  | d, 0 => d
  | d, k + 1 => Date.addDays d.nextDay k

/-- Subtract `k` days from a date (repeated `timedelta(days=-1)`). -/
def Date.subDays : Date → Nat → Date
  | d, 0 => d
  | d, k + 1 => Date.subDays d.prevDay k

/-- Shift a date by a signed number of days. -/
def Date.shiftDays (d : Date) (k : Int) : Date :=
  if 0 ≤ k then d.addDays k.toNat else d.subDays (-k).toNat

/-- Python's `datetime - datetime`, in minutes (a signed `timedelta`). -/
def DateTime.sub (a b : DateTime) : Int :=
  (a.toMin : Int) - (b.toMin : Int)

/-- Python's `datetime + timedelta` with the timedelta in minutes:
the day carry uses floor division, as `timedelta` normalization does. -/
def DateTime.addMin (t : DateTime) (m : Int) : DateTime :=
  let total : Int := (t.time : Int) + m
  ⟨t.date.shiftDays (total.ediv (minutesPerDay : Int)),
    (total.emod (minutesPerDay : Int)).toNat⟩

/-- `EventUpdate` of models/events.py lines 36-43 after
`model_dump(exclude_unset=True)`: an outer `none` is an unset field (the
`setattr` loop of event.py lines 187-189 / 212-214 skips it); for the
fields that are themselves nullable the inner value is what gets
assigned. -/
structure EventUpdate where
  title : Option String := none
  description : Option (Option String) := none
  event_type : Option EventTypeEnum := none
  start_time : Option DateTime := none
  end_time : Option DateTime := none
  repeat_pattern : Option (Option RepeatPatternEnum) := none
  repeat_until : Option (Option Date) := none
  deriving DecidableEq

/-- The `setattr` loop applying an `EventUpdate` patch to an event
(event.py lines 187-189 and 212-214). -/
def applyUpdate (ev : Event) (p : EventUpdate) : Event :=
  { ev with
    title := p.title.getD ev.title
    description := p.description.getD ev.description
    event_type := p.event_type.getD ev.event_type
    start_time := p.start_time.getD ev.start_time
    end_time := p.end_time.getD ev.end_time
    repeat_pattern := p.repeat_pattern.getD ev.repeat_pattern
    repeat_until := p.repeat_until.getD ev.repeat_until }

/-- The future-only branch of `update_event`, event.py lines 175-209, as
a pure transformation.  Returns (frozen original, new event, repeat-day
rows inserted for the new event).

Line 177 `Event(**event.model_dump())` copies every column of the
original — its primary key `id` included — but not the `repeat_days`
relationship, so the copy starts with no weekday rows.  Line 182 sets the
original's `repeat_until` to `today - timedelta(days=1)`.  Lines 187-189
apply the patch to the copy.  Line 192 re-anchors the copy's
`start_time` to `today` keeping its time of day; lines 193-195 set the
copy's `end_time` to `start_time + (end_time - original.start_time)`
(the `if new_event.end_time:` test is always true — a datetime is always
truthy).  Lines 202-205 insert rows (with `event_id = new_event.id`, the
copied key) only when the new event's pattern is WEEKLY and the
`repeat_days` query parameter was supplied. -/
def updateEventFuture (ev : Event) (p : EventUpdate)
    (repeat_days : Option (List Int)) (current_user_id : Nat)
    (today : Date) (now : Nat) : Event × Event × List EventRepeatDay :=
  let new0 : Event := { ev with owner_id := current_user_id, repeat_days := [] }
  let frozen : Event := { ev with repeat_until := some today.prevDay, updated_at := now }
  let new1 := applyUpdate new0 p
  let newStart : DateTime := ⟨today, new1.start_time.time⟩
  let timeDiff : Int := DateTime.sub new1.end_time ev.start_time
  let new2 : Event :=
    { new1 with
      start_time := newStart
      end_time := newStart.addMin timeDiff
      created_at := now
      updated_at := now }
  let newRows : List EventRepeatDay :=
    match repeat_days with
    | some ds =>
      if new2.repeat_pattern = some .weekly then
        ds.map (fun d => ⟨0, new2.id, d⟩)
      else []
    | none => []
  (frozen, new2, newRows)

/-- Result row set of a successful `update_event` call. -/
inductive UpdateOutcome
  | future (frozen newEvent : Event) (newRows : List EventRepeatDay)
  | inPlace (updated : Event)
  deriving DecidableEq

/-- Whether the `repeat_days` query parameter fails the validation of
event.py lines 166-172: `if repeat_days:` is false for `None` and for an
empty list, otherwise each value must lie in `[0, 6]`. -/
def badRepeatDays (repeat_days : Option (List Int)) : Bool :=
  match repeat_days with
  | some ds => !ds.isEmpty && ds.any (fun d => decide (d < 0) || decide (6 < d))
  | none => false

/-- `update_event` of event.py lines 147-247, faithfully, acting on the
fetched event row (the 404 branch is on the caller side of the fetch and
is not modelled).  The future-only branch is taken when the event has a
repeat pattern AND `update_future_only` (line 175); otherwise the patch
is applied in place, `start_time < end_time` is re-validated only when
the patch set either time (line 217), and the weekday rows are replaced
when `repeat_days` was supplied (empty list included) and the patched
event's pattern — or the patch's own pattern field — is WEEKLY (lines
227-241). -/
def update_event (ev : Event) (p : EventUpdate) (repeat_days : Option (List Int))
    (update_future_only : Bool) (current_user_id : Nat)
    (today : Date) (now : Nat) : Except PyExn UpdateOutcome :=
  if ev.owner_id ≠ current_user_id then .error .http403
  else if badRepeatDays repeat_days then .error .http400
  else if ev.repeat_pattern.isSome && update_future_only then
    let r := updateEventFuture ev p repeat_days current_user_id today now
    .ok (.future r.1 r.2.1 r.2.2)
  else
    let ev1 := applyUpdate ev p
    if (p.start_time.isSome || p.end_time.isSome) &&
        decide (ev1.end_time.toMin ≤ ev1.start_time.toMin) then
      .error .http400
    else
      let ev2 := { ev1 with updated_at := now }
      let ev3 :=
        match repeat_days with
        | some ds =>
          if ev2.repeat_pattern = some .weekly ∨ p.repeat_pattern = some (some .weekly) then
            { ev2 with repeat_days := ds.map (fun d => ⟨0, ev.id, d⟩) }
          else ev2
        | none => ev2
      .ok (.inPlace ev3)

/-- `delete_event` of event.py lines 249-283, faithfully: after the 404
check, line 262 evaluates `current_user_id.id` — but `current_user_id`
is an `int` query parameter, and an `int` has no attribute `id`, so
every call raises `AttributeError` before any branch is reached. -/
def delete_event (events : List Event) (event_id : Nat)
    (delete_future_only : Bool) (current_user_id : Nat) :
    Except PyExn (List Event) :=
  match events.find? (fun e => e.id == event_id) with
  | none => .error .http404
  | some _ => .error .attributeError

/-- The future-only branch body of `delete_event`, event.py lines
265-272: set `repeat_until` to **today** (not yesterday) and leave
everything else — the weekday rows included — untouched. -/
def delete_event_future_branch (ev : Event) (today : Date) (now : Nat) : Event :=
  { ev with repeat_until := some today, updated_at := now }

/-- The delete-all branch body of `delete_event`, event.py lines
273-283: remove the event's weekday rows and the event itself. -/
def delete_event_all_branch (events : List Event) (rows : List EventRepeatDay)
    (event_id : Nat) : List Event × List EventRepeatDay :=
  (events.filter (fun e => !(e.id == event_id)),
   rows.filter (fun r => !(r.event_id == event_id)))

/-- Projection of an instance to the fields the window queries surface to
the calendar: the occurrence date, its concrete times, and the title. -/
def coreMap (xs : List EventInstance) : List (Option Date × DateTime × DateTime × String) :=
  xs.map (fun i => (i.instance_date, i.start_time, i.end_time, i.title))

/-- Checker for the MONTHLY day-of-month contract: a generated instance
must sit on the template's original day-of-month, that day must exist in
its month, and the date must lie in `[windowStart, repeat-end]`. -/
def monthlyOk (ev : Event) (sd ed : Date) (inst : EventInstance) : Bool :=
  match inst.instance_date with
  | some d =>
    decide (d.day = ev.start_time.date.day) && decide (1 ≤ d.day) &&
      decide (d.day ≤ daysInMonth d.year d.month) &&
      decide (sd.toOrdinal ≤ d.toOrdinal) &&
      decide (d.toOrdinal ≤ (repeatEndDate ev ed).toOrdinal)
  | none => false

/-- Checker for the expansion upper bound: a generated instance date
never exceeds `min(windowEnd, repeat_until or windowEnd)`. -/
def withinRepeatEnd (ev : Event) (ed : Date) (inst : EventInstance) : Bool :=
  match inst.instance_date with
  | some d => decide (d.toOrdinal ≤ (repeatEndDate ev ed).toOrdinal)
  | none => true

/-! Concrete rows used by the example-level theorems.  2024-03-04 is a
Monday (`pyWeekday = 0`, normalized weekday 1); 2024-03-03 is a Sunday
(normalized weekday 0). -/

/-- A WEEKLY template: Mondays 09:00-10:00 from 2024-03-04, open-ended,
with one weekday row holding normalized Monday (= 1). -/
def evWeekly : Event :=
  { id := 1, title := "Algebra", description := none, event_type := .repeating
    start_time := ⟨⟨2024, 3, 4⟩, 540⟩, end_time := ⟨⟨2024, 3, 4⟩, 600⟩
    repeat_pattern := some .weekly, repeat_until := none
    owner_id := 7, created_at := 0, updated_at := 0
    repeat_days := [⟨1, 1, 1⟩] }

/-- The same WEEKLY template with an empty weekday-row set (as the
future-split of `update_event` produces, since it copies no rows). -/
def evWeeklyNoDays : Event := { evWeekly with repeat_days := [] }

/-- The template of the spec's DAILY example: 2024-03-10 09:00-10:00,
`repeat_until` 2024-03-12.  A DAILY repeat pattern is NOT representable —
`RepeatPatternEnum` has no `DAILY` member — so the pattern field of this
row cannot carry it; the DAILY branch body `dailyBranch` never reads the
field. -/
def evDailyShape : Event :=
  { id := 2, title := "Daily", description := none, event_type := .repeating
    start_time := ⟨⟨2024, 3, 10⟩, 540⟩, end_time := ⟨⟨2024, 3, 10⟩, 600⟩
    repeat_pattern := none, repeat_until := some ⟨2024, 3, 12⟩
    owner_id := 7, created_at := 0, updated_at := 0, repeat_days := [] }

/-- The MONTHLY template of the spec's skip example: starts 2024-01-31,
no `repeat_until`. -/
def evMonthly : Event :=
  { id := 3, title := "Monthly", description := none, event_type := .repeating
    start_time := ⟨⟨2024, 1, 31⟩, 540⟩, end_time := ⟨⟨2024, 1, 31⟩, 600⟩
    repeat_pattern := some .monthly, repeat_until := none
    owner_id := 7, created_at := 0, updated_at := 0, repeat_days := [] }

/-- A WEEKLY template crossing midnight: Monday 23:00 to Tuesday 01:00.
Its `start_time < end_time` as datetimes, yet its end time-of-day
precedes its start time-of-day. -/
def evOvernight : Event :=
  { evWeekly with start_time := ⟨⟨2024, 3, 4⟩, 1380⟩, end_time := ⟨⟨2024, 3, 5⟩, 60⟩ }

/-- A CUSTOM_DAYS template otherwise identical to `evWeekly` (same
weekday row). -/
def evCustom : Event := { evWeekly with repeat_pattern := some .custom_days }

/-- A non-repeating template (`repeat_pattern` NULL, as single events are
stored). -/
def evSingle : Event :=
  { evWeekly with
    title := "orig"
    event_type := .once
    repeat_pattern := none
    repeat_until := none
    repeat_days := [] }

/-- The patch `{title: "X"}` of the future-scope update scenario. -/
def patchTitleX : EventUpdate := { title := some ("X") }

/-- Result triple of the future-scope update of `evWeekly` with patch
`{title: "X"}` on day D = 2024-03-11, performed by the owner. -/
def c1Split : Event × Event × List EventRepeatDay :=
  updateEventFuture evWeekly patchTitleX none 7 ⟨2024, 3, 11⟩ 100

/-- The truncated row produced by the future-scope delete of `evWeekly`
on day D = 2024-03-11. -/
def c7Frozen : Event := delete_event_future_branch evWeekly ⟨2024, 3, 11⟩ 100

/-- C1: the future-scope update does freeze the original to D-1 without
touching its other occurrence-generating fields, and builds a successor
titled "X" re-anchored to day D with the one-hour duration preserved —
but the successor keeps the original's primary key (`Event(**
event.model_dump())` copies `id`), so committing it violates primary-key
uniqueness, and expanding either template raises `AttributeError`
(`RepeatPatternEnum` has no `DAILY` member), so the claimed expansion
output is never returned. -/
theorem c1_future_update_crashes :
    c1Split.1.repeat_until = some ⟨2024, 3, 10⟩ ∧
    c1Split.1.start_time = evWeekly.start_time ∧
    c1Split.1.end_time = evWeekly.end_time ∧
    c1Split.1.repeat_pattern = evWeekly.repeat_pattern ∧
    c1Split.1.repeat_days = evWeekly.repeat_days ∧
    c1Split.2.1.title = "X" ∧
    c1Split.2.1.start_time = ⟨⟨2024, 3, 11⟩, 540⟩ ∧
    c1Split.2.1.end_time = ⟨⟨2024, 3, 11⟩, 600⟩ ∧
    c1Split.2.1.id = evWeekly.id ∧
    generate_repeat_instances c1Split.1 ⟨2024, 3, 1⟩ ⟨2024, 3, 31⟩ =
      .error .attributeError ∧
    generate_repeat_instances c1Split.2.1 ⟨2024, 3, 1⟩ ⟨2024, 3, 31⟩ =
      .error .attributeError := by
  decide

/-- Expansion at branch level (granting the missing `DAILY` member its
comparison) does partition titles around D = 2024-03-11: the frozen
original yields only pre-D occurrences with the old title, the successor
only post-D occurrences with the new title — though the successor, having
no weekday rows, falls into the mis-normalized fallback and emits Sundays
instead of Mondays. -/
theorem c1_branch_title_partition :
    coreMap (generateRepeatInstancesU c1Split.1 ⟨2024, 3, 1⟩ ⟨2024, 3, 31⟩) =
      [(some ⟨2024, 3, 4⟩, ⟨⟨2024, 3, 4⟩, 540⟩, ⟨⟨2024, 3, 4⟩, 600⟩, "Algebra")] ∧
    coreMap (generateRepeatInstancesU c1Split.2.1 ⟨2024, 3, 1⟩ ⟨2024, 3, 31⟩) =
      [(some ⟨2024, 3, 17⟩, ⟨⟨2024, 3, 17⟩, 540⟩, ⟨⟨2024, 3, 17⟩, 600⟩, "X"),
       (some ⟨2024, 3, 24⟩, ⟨⟨2024, 3, 24⟩, 540⟩, ⟨⟨2024, 3, 24⟩, 600⟩, "X"),
       (some ⟨2024, 3, 31⟩, ⟨⟨2024, 3, 31⟩, 540⟩, ⟨⟨2024, 3, 31⟩, 600⟩, "X")] := by
  decide

/-- C2: the `RepeatPatternEnum` class defines no `DAILY` member, so the
claim's DAILY template cannot be stored and expanding any repeating
event raises `AttributeError` at helpers.py line 42; the DAILY branch
body itself (lines 39-62), applied to the example's fields, produces
exactly the three claimed occurrences on 03-10, 03-11, 03-12, each
09:00-10:00. -/
theorem c2_daily_member_missing_branch_matches :
    dailyMemberExists = false ∧
    (dailyBranch evDailyShape ⟨2024, 3, 1⟩ ⟨2024, 3, 31⟩).map
        (fun i => (i.instance_date, i.start_time, i.end_time)) =
      [(some ⟨2024, 3, 10⟩, ⟨⟨2024, 3, 10⟩, 540⟩, ⟨⟨2024, 3, 10⟩, 600⟩),
       (some ⟨2024, 3, 11⟩, ⟨⟨2024, 3, 11⟩, 540⟩, ⟨⟨2024, 3, 11⟩, 600⟩),
       (some ⟨2024, 3, 12⟩, ⟨⟨2024, 3, 12⟩, 540⟩, ⟨⟨2024, 3, 12⟩, 600⟩)] := by
  decide

/-- C3 counterexample: a template whose span crosses midnight satisfies
`start_time < end_time`, yet its generated occurrence re-combines both
times of day onto one date and ends before it starts. -/
theorem c3_counterexample_overnight :
    evOvernight.start_time.toMin < evOvernight.end_time.toMin ∧
    (generateRepeatInstancesU evOvernight ⟨2024, 3, 4⟩ ⟨2024, 3, 4⟩).map
        (fun i => decide (i.start_time.toMin < i.end_time.toMin)) = [false] := by
  decide

/-- C4: the WEEKLY empty-set fallback stores the Python weekday of the
start date (Monday = 0) but the loop compares Sunday-normalized weekdays,
so a Monday-starting template with no weekday rows emits Sundays: over
2024-03-03 .. 2024-03-16 it emits exactly 2024-03-10 (a Sunday) and
neither of the Mondays 03-04, 03-11 the claim requires. -/
theorem c4_weekly_fallback_shifted :
    evWeeklyNoDays.start_time.date.pyWeekday = 0 ∧
    normWeekday evWeeklyNoDays.start_time.date = 1 ∧
    (generateRepeatInstancesU evWeeklyNoDays ⟨2024, 3, 3⟩ ⟨2024, 3, 16⟩).map
        (fun i => i.instance_date) = [some ⟨2024, 3, 10⟩] ∧
    normWeekday ⟨2024, 3, 10⟩ = 0 := by
  decide

/-- C5 counterexample: a CUSTOM_DAYS template with the same fields and
the same non-empty weekday set as a WEEKLY template expands to nothing,
while the WEEKLY template expands to four occurrences. -/
theorem c5_counterexample_custom_not_weekly :
    generateRepeatInstancesU evCustom ⟨2024, 3, 1⟩ ⟨2024, 3, 31⟩ = [] ∧
    (generateRepeatInstancesU evWeekly ⟨2024, 3, 1⟩ ⟨2024, 3, 31⟩).map
        (fun i => i.instance_date) =
      [some ⟨2024, 3, 4⟩, some ⟨2024, 3, 11⟩, some ⟨2024, 3, 18⟩, some ⟨2024, 3, 25⟩] := by
  decide

/-- C7 counterexample: the future-scope delete branch sets `repeat_until`
to D itself (2024-03-11), and the window [D, D] — entirely on/after D —
still yields an occurrence on D. -/
theorem c7_counterexample_day_d_still_generated :
    c7Frozen.repeat_until = some ⟨2024, 3, 11⟩ ∧
    (generateRepeatInstancesU c7Frozen ⟨2024, 3, 11⟩ ⟨2024, 3, 11⟩).map
        (fun i => i.instance_date) = [some ⟨2024, 3, 11⟩] := by
  decide

/-- C8: `delete_event` dereferences `current_user_id.id` on an `int`
(event.py line 262) and raises `AttributeError` for every caller — the
owner included — before any branch runs, so nothing is ever deleted; the
delete-all branch body itself would remove the template and all of its
weekday rows. -/
theorem c8_delete_always_raises :
    delete_event [evWeekly] 1 false 7 = .error .attributeError ∧
    evWeekly.owner_id = 7 ∧
    delete_event_all_branch [evWeekly] evWeekly.repeat_days 1 = ([], []) := by
  decide

/-- C9 counterexample: a scope-FUTURE update of a NONE-pattern template
is not rejected — the flag is silently ignored and the template is
mutated in place (title set to "X"). -/
theorem c9_counterexample_silent_inplace_update :
    update_event evSingle patchTitleX none true 7 ⟨2024, 3, 11⟩ 100 =
      .ok (.inPlace { evSingle with title := "X", updated_at := 100 }) ∧
    evSingle.title = "orig" := by
  decide

/-! Calendar lemmas: advancing one day adds one to the Python ordinal and
preserves representability. -/

theorem daysInMonth_pos (y m : Nat) (h1 : 1 ≤ m) (h2 : m ≤ 12) :
    1 ≤ daysInMonth y m := by
  interval_cases m <;> simp only [daysInMonth] <;> first
    | omega
    | (split <;> omega)

theorem daysBeforeMonth_step (y m : Nat) (h1 : 1 ≤ m) (h2 : m ≤ 11) :
    daysBeforeMonth (isLeapYear y) (m + 1) =
      daysBeforeMonth (isLeapYear y) m + daysInMonth y m := by
  interval_cases m <;> cases h : isLeapYear y <;>
    simp [daysBeforeMonth, daysInMonth, leapDay, h]

theorem daysBeforeMonth_full (y : Nat) :
    daysBeforeMonth (isLeapYear y) 12 + 31 = 365 + leapDay (isLeapYear y) := by
  cases h : isLeapYear y <;> simp [daysBeforeMonth, leapDay, h]

theorem leapDay_ite (y : Nat) :
    leapDay (isLeapYear y) =
      if ((y % 4 = 0 ∧ ¬ y % 100 = 0) ∨ y % 400 = 0) then 1 else 0 := by
  unfold leapDay isLeapYear
  by_cases hp : ((y % 4 = 0 ∧ ¬ y % 100 = 0) ∨ y % 400 = 0)
  · rw [if_pos hp, if_pos (decide_eq_true hp)]
  · rw [if_neg hp, if_neg (fun hc => hp (of_decide_eq_true hc))]

set_option maxHeartbeats 1000000 in
theorem daysBeforeYear_succ (y : Nat) (h : 1 ≤ y) :
    daysBeforeYear (y + 1) = daysBeforeYear y + 365 + leapDay (isLeapYear y) := by
  rw [leapDay_ite]
  unfold daysBeforeYear
  by_cases hp : ((y % 4 = 0 ∧ ¬ y % 100 = 0) ∨ y % 400 = 0)
  · rw [if_pos hp]; omega
  · rw [if_neg hp]; omega

theorem toOrdinal_nextDay (d : Date) (hv : d.Valid) :
    d.nextDay.toOrdinal = d.toOrdinal + 1 := by
  obtain ⟨hy, hm1, hm2, hd1, hd2⟩ := hv
  unfold Date.nextDay
  by_cases h1 : d.day < daysInMonth d.year d.month
  · rw [if_pos h1]
    show daysBeforeYear d.year + daysBeforeMonth (isLeapYear d.year) d.month + (d.day + 1) =
      daysBeforeYear d.year + daysBeforeMonth (isLeapYear d.year) d.month + d.day + 1
    omega
  · rw [if_neg h1]
    have hde : d.day = daysInMonth d.year d.month := by omega
    by_cases h2 : d.month < 12
    · rw [if_pos h2]
      show daysBeforeYear d.year + daysBeforeMonth (isLeapYear d.year) (d.month + 1) + 1 =
        daysBeforeYear d.year + daysBeforeMonth (isLeapYear d.year) d.month + d.day + 1
      rw [daysBeforeMonth_step d.year d.month hm1 (by omega)]
      omega
    · rw [if_neg h2]
      have hm12 : d.month = 12 := by omega
      show daysBeforeYear (d.year + 1) + daysBeforeMonth (isLeapYear (d.year + 1)) 1 + 1 =
        daysBeforeYear d.year + daysBeforeMonth (isLeapYear d.year) d.month + d.day + 1
      have hone : daysBeforeMonth (isLeapYear (d.year + 1)) 1 = 0 := rfl
      have hd31 : d.day = 31 := by
        rw [hde, hm12]
        rfl
      have hfull := daysBeforeMonth_full d.year
      have hsucc := daysBeforeYear_succ d.year hy
      rw [hone, hsucc, hm12, hd31]
      omega

theorem Valid_nextDay (d : Date) (hv : d.Valid) : d.nextDay.Valid := by
  obtain ⟨hy, hm1, hm2, hd1, hd2⟩ := hv
  unfold Date.nextDay
  by_cases h1 : d.day < daysInMonth d.year d.month
  · rw [if_pos h1]
    exact ⟨hy, hm1, hm2, Nat.succ_le_succ (Nat.zero_le _), h1⟩
  · rw [if_neg h1]
    by_cases h2 : d.month < 12
    · rw [if_pos h2]
      exact ⟨hy, Nat.succ_le_succ (Nat.zero_le _), h2, Nat.le_refl 1,
        daysInMonth_pos d.year (d.month + 1) (Nat.succ_le_succ (Nat.zero_le _)) h2⟩
    · rw [if_neg h2]
      exact ⟨Nat.le_succ_of_le hy, Nat.le_refl 1, (by decide : (1 : Nat) ≤ 12),
        Nat.le_refl 1, (by decide : (1 : Nat) ≤ 31)⟩

theorem pymax_ord_left (a b : Date) : a.toOrdinal ≤ (pymax a b).toOrdinal := by
  unfold pymax; split <;> omega

theorem pymin_ord_left (a b : Date) : (pymin a b).toOrdinal ≤ a.toOrdinal := by
  unfold pymin; split <;> omega

theorem pymin_ord_right (a b : Date) : (pymin a b).toOrdinal ≤ b.toOrdinal := by
  unfold pymin; split <;> omega

theorem pymax_valid (a b : Date) (ha : a.Valid) (hb : b.Valid) :
    (pymax a b).Valid := by
  unfold pymax; split <;> assumption

theorem repeatEndDate_ord_le (ev : Event) (ed : Date) :
    (repeatEndDate ev ed).toOrdinal ≤ ed.toOrdinal := by
  unfold repeatEndDate
  cases h : ev.repeat_until with
  | none => exact Nat.le_refl _
  | some ru => exact pymin_ord_left ed ru

theorem firstCandidate_ord_ge (ev : Event) (sd : Date) :
    sd.toOrdinal ≤ (firstCandidate ev sd).toOrdinal :=
  pymax_ord_left sd ev.start_time.date

theorem firstCandidate_valid (ev : Event) (sd : Date) (hsd : sd.Valid)
    (hst : ev.start_time.date.Valid) : (firstCandidate ev sd).Valid :=
  pymax_valid sd ev.start_time.date hsd hst

/-! Loop lemmas: everything the WEEKLY and MONTHLY loops emit is a
`mkRepeatInstance` whose date obeys the loop bounds; a loop whose first
candidate already exceeds the repeat end emits nothing; and freezing
`repeat_until` / touching `updated_at` does not change the projected
occurrence data. -/

theorem weeklyLoop_mem (ev : Event) (re : Date) (ds : List Int) :
    ∀ (fuel : Nat) (cur : Date), ∀ inst ∈ weeklyLoop ev re ds fuel cur,
      ∃ d : Date, inst = mkRepeatInstance ev d ∧ d.toOrdinal ≤ re.toOrdinal := by
  intro fuel
  induction fuel with
  | zero =>
    intro cur inst h
    simp [weeklyLoop] at h
  | succ f ih =>
    intro cur inst h
    unfold weeklyLoop at h
    by_cases hg : cur.toOrdinal ≤ re.toOrdinal
    · rw [if_pos hg] at h
      rcases List.mem_append.mp h with h1 | h2
      · by_cases hc : ds.contains (normWeekday cur)
        · rw [if_pos hc, List.mem_singleton] at h1
          exact ⟨cur, h1, hg⟩
        · rw [if_neg hc] at h1
          simp at h1
      · exact ih cur.nextDay inst h2
    · rw [if_neg hg] at h
      simp at h

theorem weeklyLoop_bounds (ev : Event) (re : Date) (ds : List Int) :
    ∀ (fuel : Nat) (cur : Date), cur.Valid →
      ∀ inst ∈ weeklyLoop ev re ds fuel cur,
        ∃ d : Date, inst = mkRepeatInstance ev d ∧
          cur.toOrdinal ≤ d.toOrdinal ∧ d.toOrdinal ≤ re.toOrdinal := by
  intro fuel
  induction fuel with
  | zero =>
    intro cur _ inst h
    simp [weeklyLoop] at h
  | succ f ih =>
    intro cur hv inst h
    unfold weeklyLoop at h
    by_cases hg : cur.toOrdinal ≤ re.toOrdinal
    · rw [if_pos hg] at h
      rcases List.mem_append.mp h with h1 | h2
      · by_cases hc : ds.contains (normWeekday cur)
        · rw [if_pos hc, List.mem_singleton] at h1
          exact ⟨cur, h1, Nat.le_refl _, hg⟩
        · rw [if_neg hc] at h1
          simp at h1
      · obtain ⟨d, hde, hlo, hhi⟩ := ih cur.nextDay (Valid_nextDay cur hv) inst h2
        refine ⟨d, hde, ?_, hhi⟩
        have hstep := toOrdinal_nextDay cur hv
        omega
    · rw [if_neg hg] at h
      simp at h

theorem monthlyLoop_mem (ev : Event) (ws re : Date) (od : Nat) :
    ∀ (fuel : Nat) (ym : Nat × Nat), ∀ inst ∈ monthlyLoop ev ws re od fuel ym,
      ∃ y m : Nat, inst = mkRepeatInstance ev ⟨y, m, od⟩ ∧
        1 ≤ od ∧ od ≤ daysInMonth y m ∧
        ws.toOrdinal ≤ (Date.mk y m od).toOrdinal ∧
        (Date.mk y m od).toOrdinal ≤ re.toOrdinal := by
  intro fuel
  induction fuel with
  | zero =>
    intro ym inst h
    simp [monthlyLoop] at h
  | succ f ih =>
    intro ym inst h
    obtain ⟨y, m⟩ := ym
    unfold monthlyLoop at h
    by_cases hg : (Date.mk y m 1).toOrdinal ≤ re.toOrdinal
    · rw [if_pos hg] at h
      rcases List.mem_append.mp h with h1 | h2
      · by_cases hc : (1 ≤ od ∧ od ≤ daysInMonth y m ∧
            ws.toOrdinal ≤ (Date.mk y m od).toOrdinal ∧
            (Date.mk y m od).toOrdinal ≤ re.toOrdinal)
        · rw [if_pos hc, List.mem_singleton] at h1
          exact ⟨y, m, h1, hc.1, hc.2.1, hc.2.2.1, hc.2.2.2⟩
        · rw [if_neg hc] at h1
          simp at h1
      · exact ih _ inst h2
    · rw [if_neg hg] at h
      simp at h

theorem weeklyLoop_empty (ev : Event) (re : Date) (ds : List Int)
    (fuel : Nat) (cur : Date) (h : re.toOrdinal < cur.toOrdinal) :
    weeklyLoop ev re ds fuel cur = [] := by
  cases fuel with
  | zero => rfl
  | succ f =>
    unfold weeklyLoop
    rw [if_neg (by omega)]

theorem monthlyLoop_empty (ev : Event) (ws re : Date) (od : Nat)
    (h : re.toOrdinal < ws.toOrdinal) :
    ∀ (fuel : Nat) (ym : Nat × Nat), monthlyLoop ev ws re od fuel ym = [] := by
  intro fuel
  induction fuel with
  | zero => intro ym; rfl
  | succ f ih =>
    intro ym
    obtain ⟨y, m⟩ := ym
    unfold monthlyLoop
    by_cases hg : (Date.mk y m 1).toOrdinal ≤ re.toOrdinal
    · rw [if_pos hg, if_neg (by omega), List.nil_append]
      exact ih _
    · rw [if_neg hg]

theorem weeklyLoop_congr (e1 e2 : Event) (hst : e1.start_time = e2.start_time)
    (hen : e1.end_time = e2.end_time) (ht : e1.title = e2.title)
    (re : Date) (ds : List Int) :
    ∀ (fuel : Nat) (cur : Date),
      coreMap (weeklyLoop e1 re ds fuel cur) = coreMap (weeklyLoop e2 re ds fuel cur) := by
  intro fuel
  induction fuel with
  | zero => intro cur; rfl
  | succ f ih =>
    intro cur
    unfold weeklyLoop
    by_cases hg : cur.toOrdinal ≤ re.toOrdinal
    · rw [if_pos hg, if_pos hg]
      unfold coreMap at *
      rw [List.map_append, List.map_append, ih]
      congr 1
      by_cases hc : ds.contains (normWeekday cur)
      · rw [if_pos hc, if_pos hc]
        simp [mkRepeatInstance, hst, hen, ht]
      · rw [if_neg hc, if_neg hc]
    · rw [if_neg hg, if_neg hg]

theorem monthlyLoop_congr (e1 e2 : Event) (hst : e1.start_time = e2.start_time)
    (hen : e1.end_time = e2.end_time) (ht : e1.title = e2.title)
    (ws re : Date) (od : Nat) :
    ∀ (fuel : Nat) (ym : Nat × Nat),
      coreMap (monthlyLoop e1 ws re od fuel ym) =
        coreMap (monthlyLoop e2 ws re od fuel ym) := by
  intro fuel
  induction fuel with
  | zero => intro ym; rfl
  | succ f ih =>
    intro ym
    obtain ⟨y, m⟩ := ym
    unfold monthlyLoop
    by_cases hg : (Date.mk y m 1).toOrdinal ≤ re.toOrdinal
    · rw [if_pos hg, if_pos hg]
      unfold coreMap at *
      rw [List.map_append, List.map_append, ih]
      congr 1
      by_cases hc : (1 ≤ od ∧ od ≤ daysInMonth y m ∧
          ws.toOrdinal ≤ (Date.mk y m od).toOrdinal ∧
          (Date.mk y m od).toOrdinal ≤ re.toOrdinal)
      · rw [if_pos hc, if_pos hc]
        simp [mkRepeatInstance, hst, hen, ht]
      · rw [if_neg hc, if_neg hc]
    · rw [if_neg hg, if_neg hg]

theorem dailyLoop_dates (ev : Event) (re : Date) :
    ∀ (fuel : Nat) (cur : Date), cur.Valid →
      fuel = re.toOrdinal + 1 - cur.toOrdinal →
      (dailyLoop ev re fuel cur).map (fun i => i.instance_date) =
        (List.range fuel).map (fun k => some (cur.addDays k)) := by
  intro fuel
  induction fuel with
  | zero =>
    intro cur _ _
    rfl
  | succ f ih =>
    intro cur hv hf
    have hg : cur.toOrdinal ≤ re.toOrdinal := by omega
    unfold dailyLoop
    rw [if_pos hg, List.map_cons,
      ih cur.nextDay (Valid_nextDay cur hv) (by rw [toOrdinal_nextDay cur hv]; omega),
      List.range_succ_eq_map, List.map_cons, List.map_map]
    rfl

/-- The DAILY branch emits exactly one occurrence per consecutive
calendar date, starting at `max(windowStart, template start date)` and
running for `min(windowEnd, repeat_until or windowEnd) - from + 1`
days. -/
theorem dailyBranch_dates (ev : Event) (sd ed : Date)
    (hsd : sd.Valid) (hst : ev.start_time.date.Valid) :
    (dailyBranch ev sd ed).map (fun i => i.instance_date) =
      (List.range
          ((repeatEndDate ev ed).toOrdinal + 1 - (firstCandidate ev sd).toOrdinal)).map
        (fun k => some ((firstCandidate ev sd).addDays k)) :=
  dailyLoop_dates ev (repeatEndDate ev ed) _ (firstCandidate ev sd)
    (firstCandidate_valid ev sd hsd hst) rfl

theorem pymin_eq_first (a b : Date) (h : ¬ b.toOrdinal < a.toOrdinal) :
    pymin a b = a := if_neg h

theorem repeatEndDate_futureBranch (ev : Event) (D : Date) (now : Nat) (ed : Date) :
    repeatEndDate (delete_event_future_branch ev D now) ed = pymin ed D := rfl

theorem repeatEndDate_none (ev : Event) (ed : Date) (h : ev.repeat_until = none) :
    repeatEndDate ev ed = ed := by
  unfold repeatEndDate
  rw [h]

/-- C3 (amended): for a template whose start and end times of day are
ordered — equivalently, whose span does not cross midnight — every
occurrence the engine produces starts before it ends, and every generated
occurrence's `instance_date` lies in `[windowStart, windowEnd]`. -/
theorem c3_occurrence_invariants (ev : Event) (sd ed : Date)
    (hsd : sd.Valid) (hstart : ev.start_time.date.Valid)
    (hlt : ev.start_time.toMin < ev.end_time.toMin)
    (htod : ev.start_time.time < ev.end_time.time) :
    ∀ inst ∈ generateRepeatInstancesU ev sd ed,
      inst.start_time.toMin < inst.end_time.toMin ∧
      ∀ d : Date, inst.instance_date = some d →
        sd.toOrdinal ≤ d.toOrdinal ∧ d.toOrdinal ≤ ed.toOrdinal := by
  intro inst h
  cases hp : ev.repeat_pattern with
  | none =>
    simp only [generateRepeatInstancesU, hp] at h
    unfold singleBranch at h
    split at h
    · rw [List.mem_singleton] at h
      subst h
      refine ⟨hlt, ?_⟩
      intro d hd
      simp [mkSingleInstance] at hd
    · simp at h
  | some pat =>
    cases pat with
    | weekly =>
      simp only [generateRepeatInstancesU, hp] at h
      obtain ⟨d, hde, hlo, hhi⟩ :=
        weeklyLoop_bounds ev (repeatEndDate ev ed) _ _ (firstCandidate ev sd)
          (firstCandidate_valid ev sd hsd hstart) inst h
      subst hde
      constructor
      · simp only [mkRepeatInstance, pyCombine, DateTime.toMin]
        omega
      · intro d' hd'
        have hdd : d = d' := by
          simpa [mkRepeatInstance] using hd'
        subst hdd
        exact ⟨Nat.le_trans (firstCandidate_ord_ge ev sd) hlo,
          Nat.le_trans hhi (repeatEndDate_ord_le ev ed)⟩
    | monthly =>
      simp only [generateRepeatInstancesU, hp] at h
      obtain ⟨y, m, hde, h1, h2, h3, h4⟩ :=
        monthlyLoop_mem ev sd (repeatEndDate ev ed) ev.start_time.date.day _ _ inst h
      subst hde
      constructor
      · simp only [mkRepeatInstance, pyCombine, DateTime.toMin]
        omega
      · intro d' hd'
        have hdd : (⟨y, m, ev.start_time.date.day⟩ : Date) = d' := by
          simpa [mkRepeatInstance] using hd'
        subst hdd
        exact ⟨h3, Nat.le_trans h4 (repeatEndDate_ord_le ev ed)⟩
    | custom_days =>
      simp only [generateRepeatInstancesU, hp] at h
      simp at h

/-- C3 witness: a concrete generated occurrence of `evWeekly` starts
before it ends. -/
theorem c3_occurrence_invariants_witness :
    (mkRepeatInstance evWeekly ⟨2024, 3, 4⟩).start_time.toMin <
      (mkRepeatInstance evWeekly ⟨2024, 3, 4⟩).end_time.toMin :=
  (c3_occurrence_invariants evWeekly ⟨2024, 3, 1⟩ ⟨2024, 3, 31⟩ (by decide) (by decide)
      (by decide) (by decide) (mkRepeatInstance evWeekly ⟨2024, 3, 4⟩) (by decide)).1

/-- C5 (amended): a CUSTOM_DAYS template expands to the empty list for
every window — the `elif` chain of helpers.py has no CUSTOM_DAYS branch —
so it is not equivalent to WEEKLY on any non-empty weekday set, and the
empty-set case also yields zero occurrences. -/
theorem c5_custom_days_yields_nothing (ev : Event) (sd ed : Date)
    (h : ev.repeat_pattern = some .custom_days) :
    generateRepeatInstancesU ev sd ed = [] := by
  simp [generateRepeatInstancesU, h]

/-- C5 witness. -/
theorem c5_custom_days_yields_nothing_witness :
    generateRepeatInstancesU evCustom ⟨2024, 3, 1⟩ ⟨2024, 3, 31⟩ = [] :=
  c5_custom_days_yields_nothing evCustom ⟨2024, 3, 1⟩ ⟨2024, 3, 31⟩ (by decide)

/-- C6: expanding any repeating template — the MONTHLY example included —
raises `AttributeError` (`RepeatPatternEnum` lacks the `DAILY` member read
at helpers.py line 42); the MONTHLY branch itself matches the claim: on
the example it emits exactly 2024-01-31 and 2024-03-31 (February and
April are skipped, never clamped), and in general every emitted
occurrence sits on the template's original day-of-month, in a month where
that day exists, within `[windowStart, repeat-end]`. -/
theorem c6_monthly_day_preservation :
    generate_repeat_instances evMonthly ⟨2024, 1, 1⟩ ⟨2024, 4, 30⟩ = .error .attributeError ∧
    (generateRepeatInstancesU evMonthly ⟨2024, 1, 1⟩ ⟨2024, 4, 30⟩).map
        (fun i => i.instance_date) = [some ⟨2024, 1, 31⟩, some ⟨2024, 3, 31⟩] ∧
    ∀ (ev : Event) (sd ed : Date), ev.repeat_pattern = some .monthly →
      ∀ inst ∈ generateRepeatInstancesU ev sd ed, monthlyOk ev sd ed inst = true := by
  refine ⟨by decide, by decide, ?_⟩
  intro ev sd ed hp inst h
  simp only [generateRepeatInstancesU, hp] at h
  obtain ⟨y, m, hde, h1, h2, h3, h4⟩ :=
    monthlyLoop_mem ev sd (repeatEndDate ev ed) ev.start_time.date.day _ _ inst h
  subst hde
  simp [monthlyOk, mkRepeatInstance, h1, h2, h3, h4]

/-- C6 witness: the checker accepts a concrete emitted occurrence. -/
theorem c6_monthly_day_preservation_witness :
    monthlyOk evMonthly ⟨2024, 1, 1⟩ ⟨2024, 4, 30⟩
      (mkRepeatInstance evMonthly ⟨2024, 1, 31⟩) = true :=
  c6_monthly_day_preservation.2.2 evMonthly ⟨2024, 1, 1⟩ ⟨2024, 4, 30⟩ (by decide)
    (mkRepeatInstance evMonthly ⟨2024, 1, 31⟩) (by decide)

/-- C7 (amended): on a repeating template with no `repeat_until`, the
future-scope delete branch sets `repeat_until` to D itself — not D-1 —
and leaves every other field, the weekday rows included, untouched;
windows ending strictly before D expand to the same occurrence data as
before; windows starting strictly after D expand to nothing; day D
itself may still be generated (see the counterexample). -/
theorem c7_truncation_semantics (ev : Event) (pt : RepeatPatternEnum) (D : Date) (now : Nat)
    (hp : ev.repeat_pattern = some pt) (hru : ev.repeat_until = none) :
    (delete_event_future_branch ev D now).repeat_until = some D ∧
    (delete_event_future_branch ev D now).repeat_days = ev.repeat_days ∧
    (delete_event_future_branch ev D now).title = ev.title ∧
    (delete_event_future_branch ev D now).start_time = ev.start_time ∧
    (delete_event_future_branch ev D now).end_time = ev.end_time ∧
    (delete_event_future_branch ev D now).repeat_pattern = ev.repeat_pattern ∧
    (∀ sd ed : Date, ed.toOrdinal < D.toOrdinal →
      coreMap (generateRepeatInstancesU (delete_event_future_branch ev D now) sd ed) =
        coreMap (generateRepeatInstancesU ev sd ed)) ∧
    (∀ sd ed : Date, D.toOrdinal < sd.toOrdinal →
      generateRepeatInstancesU (delete_event_future_branch ev D now) sd ed = []) := by
  refine ⟨rfl, rfl, rfl, rfl, rfl, rfl, ?_, ?_⟩
  · intro sd ed hed
    have hpm : pymin ed D = ed := pymin_eq_first ed D (by omega)
    cases pt with
    | weekly =>
      simp only [generateRepeatInstancesU, delete_event_future_branch, repeatEndDate,
        firstCandidate, hp, hru, hpm]
      apply weeklyLoop_congr <;> rfl
    | monthly =>
      simp only [generateRepeatInstancesU, delete_event_future_branch, repeatEndDate,
        firstCandidate, hp, hru, hpm]
      apply monthlyLoop_congr <;> rfl
    | custom_days =>
      simp only [generateRepeatInstancesU, delete_event_future_branch, hp]
  · intro sd ed hsd
    have hpm : (pymin ed D).toOrdinal ≤ D.toOrdinal := pymin_ord_right ed D
    have hcur : sd.toOrdinal ≤ (pymax sd ev.start_time.date).toOrdinal :=
      pymax_ord_left sd ev.start_time.date
    cases pt with
    | weekly =>
      simp only [generateRepeatInstancesU, delete_event_future_branch, repeatEndDate,
        firstCandidate, hp]
      apply weeklyLoop_empty
      omega
    | monthly =>
      simp only [generateRepeatInstancesU, delete_event_future_branch, repeatEndDate,
        firstCandidate, hp]
      apply monthlyLoop_empty
      omega
    | custom_days =>
      simp only [generateRepeatInstancesU, delete_event_future_branch, hp]

/-- C7 witness: after truncating `evWeekly` on 2024-03-11, the window
2024-03-12 .. 2024-03-31 — entirely strictly after D — yields nothing. -/
theorem c7_truncation_semantics_witness :
    generateRepeatInstancesU (delete_event_future_branch evWeekly ⟨2024, 3, 11⟩ 100)
      ⟨2024, 3, 12⟩ ⟨2024, 3, 31⟩ = [] :=
  (c7_truncation_semantics evWeekly .weekly ⟨2024, 3, 11⟩ 100 (by decide)
      (by decide)).2.2.2.2.2.2.2 ⟨2024, 3, 12⟩ ⟨2024, 3, 31⟩ (by decide)

/-- C9 (amended): a scope-FUTURE request on a NONE-pattern template is
not rejected: `update_event` with `update_future_only = true` behaves
exactly as with `update_future_only = false` (the in-place, ALL-scope
update), and `delete_event` never reads the flag at all (it raises
`AttributeError` at its owner check for every call). -/
theorem c9_future_scope_ignored (ev : Event) (p : EventUpdate) (rd : Option (List Int))
    (uid : Nat) (today : Date) (now : Nat) (h : ev.repeat_pattern = none) :
    update_event ev p rd true uid today now = update_event ev p rd false uid today now ∧
    ∀ (evs : List Event) (eid fuid : Nat),
      delete_event evs eid true fuid = delete_event evs eid false fuid := by
  constructor
  · simp [update_event, h]
  · intro evs eid fuid
    rfl

/-- C9 witness. -/
theorem c9_future_scope_ignored_witness :
    update_event evSingle patchTitleX none true 7 ⟨2024, 3, 11⟩ 100 =
      update_event evSingle patchTitleX none false 7 ⟨2024, 3, 11⟩ 100 :=
  (c9_future_scope_ignored evSingle patchTitleX none 7 ⟨2024, 3, 11⟩ 100 (by decide)).1

/-- C10: `generate_repeat_instances` raises `AttributeError` instead of
returning a sequence for any repeating template (the missing `DAILY`
member), so the claim fails as stated on the faithful function; the
per-pattern loops themselves are bounded exactly as claimed — every
generated occurrence date is at most `min(windowEnd, repeat_until or
windowEnd)`, whether or not `repeat_until` is present — and the result
is a finite list by construction. -/
theorem c10_loops_bounded :
    generate_repeat_instances evWeekly ⟨2024, 3, 1⟩ ⟨2024, 3, 31⟩ = .error .attributeError ∧
    ∀ (ev : Event) (sd ed : Date), ∀ inst ∈ generateRepeatInstancesU ev sd ed,
      withinRepeatEnd ev ed inst = true := by
  refine ⟨by decide, ?_⟩
  intro ev sd ed inst h
  cases hp : ev.repeat_pattern with
  | none =>
    simp only [generateRepeatInstancesU, hp] at h
    unfold singleBranch at h
    split at h
    · rw [List.mem_singleton] at h
      subst h
      rfl
    · simp at h
  | some pat =>
    cases pat with
    | weekly =>
      simp only [generateRepeatInstancesU, hp] at h
      obtain ⟨d, hde, hhi⟩ :=
        weeklyLoop_mem ev (repeatEndDate ev ed) _ _ (firstCandidate ev sd) inst h
      subst hde
      simp [withinRepeatEnd, mkRepeatInstance, hhi]
    | monthly =>
      simp only [generateRepeatInstancesU, hp] at h
      obtain ⟨y, m, hde, _, _, _, h4⟩ :=
        monthlyLoop_mem ev sd (repeatEndDate ev ed) ev.start_time.date.day _ _ inst h
      subst hde
      simp [withinRepeatEnd, mkRepeatInstance, h4]
    | custom_days =>
      simp only [generateRepeatInstancesU, hp] at h
      simp at h

/-- C10 witness: the bound checker accepts a concrete generated
occurrence. -/
theorem c10_loops_bounded_witness :
    withinRepeatEnd evWeekly ⟨2024, 3, 31⟩ (mkRepeatInstance evWeekly ⟨2024, 3, 4⟩) = true :=
  c10_loops_bounded.2 evWeekly ⟨2024, 3, 1⟩ ⟨2024, 3, 31⟩
    (mkRepeatInstance evWeekly ⟨2024, 3, 4⟩) (by decide)

end TutorLog
